import Mathlib

/-!
Shallow embedding of the tempearly templating engine
(src/tempearly/base.py, conditions.py, defaults.py, exceptions.py).

Strings are modelled as `List Char` (`Str`); Python's character classes
(`str.isdigit`, `str.isidentifier`, `\w`, `\s`) are modelled over ASCII via
`Char.toNat` ranges.  Python exceptions are an inductive `TErr`: the two
template error classes (`TemplateSyntaxError`, `TemplateKeyError`), plus the
builtin exceptions the code can raise (`IndexError` from popping an empty
deque, `ValueError` from tuple unpacking, `TypeError` from `str + Block`,
`AttributeError` from a function transform, `KeyError` from a registry
lookup).  The dynamic date/time/environ values provided by the default
variable registry are parameters of an `Env` record.
-/

namespace Tempearly

/-- Model of a Python string: a list of characters. -/
abbrev Str := List Char

/-- Character list of a Lean string literal. -/
def ofS (s : String) : Str := s.data

/-- ASCII model of Python whitespace (the set stripped by `str.strip` and
matched by the regex class `\s`): space, tab, LF, VT, FF, CR. -/
def isPySpace (c : Char) : Bool := c.toNat == 32 || (9 ≤ c.toNat && c.toNat ≤ 13)

/-- ASCII decimal digit, as in `str.isdigit`. -/
def isDigitCh (c : Char) : Bool := 48 ≤ c.toNat && c.toNat ≤ 57

/-- ASCII model of a character that may start a Python identifier. -/
def isIdentStart (c : Char) : Bool :=
  (97 ≤ c.toNat && c.toNat ≤ 122) || (65 ≤ c.toNat && c.toNat ≤ 90) || c.toNat == 95

/-- ASCII model of a character that may continue a Python identifier;
this is also the regex word class `\w`. -/
def isIdentCont (c : Char) : Bool := isIdentStart c || isDigitCh c

/-- Model of `str.strip()`: drop leading and trailing whitespace. -/
def pyStrip (s : Str) : Str :=
  ((s.dropWhile isPySpace).reverse.dropWhile isPySpace).reverse

/-- Model of `str.startswith(pat)`. -/
def startsWithL (pat s : Str) : Bool :=
  match pat, s with
  | [], _ => true
  | _ :: _, [] => false
  | p :: ps, c :: cs => p == c && startsWithL ps cs

/-- Model of Python's substring test `pat in s`. -/
def isSub (pat : Str) : Str → Bool
  | [] => startsWithL pat []
  | c :: rest => startsWithL pat (c :: rest) || isSub pat rest

/-- Number of newline characters in a fragment
(`len(re.findall("\n", token))`). -/
def countNl : Str → Nat
  | [] => 0
  | c :: rest => (if c = '\n' then 1 else 0) + countNl rest

/-- Model of `re.split(r"\n", s)`: the fragment's lines, empties kept. -/
def splitNl : Str → List Str
  | [] => [[]]
  | c :: rest =>
    if c = '\n' then [] :: splitNl rest
    else
      match splitNl rest with
      | [] => [[c]]
      | l :: ls => (c :: l) :: ls

/-- Model of `str.isdigit()` over ASCII: non-empty and all digits. -/
def isdigitL (s : Str) : Bool := !s.isEmpty && s.all isDigitCh

/-- Model of `str.isidentifier()` over ASCII. -/
def isidentifierL : Str → Bool
  | [] => false
  | c :: cs => isIdentStart c && cs.all isIdentCont

/-- Python slice `s[1:-1]`. -/
def pyInner (s : Str) : Str := (s.drop 1).take (s.length - 2)

/-- Python slice `s[2:-2]`, the interior of a `<<...>>` or `<%...%>` tag. -/
def sliceInner2 (s : Str) : Str := (s.drop 2).take (s.length - 4)

/-- Value of `int(s)` for a digit string. -/
def digitsToInt (s : Str) : Int :=
  Int.ofNat (s.foldl (fun a c => a * 10 + (c.toNat - 48)) 0)

/-- Last character of a string, if any (`s.endswith(q)` is modelled through
this). -/
def lastCh : Str → Option Char
  | [] => none
  | [c] => some c
  | _ :: c :: rest => lastCh (c :: rest)

/-- A Python date or datetime object, reduced to the attributes the engine
uses: its `.year` and its `str(...)` form. -/
structure PyDate where
  year : Int
  str : Str
deriving DecidableEq

/-- A dynamically typed context/registry value: string, integer, date,
datetime, or a dict (kept only as its `str(...)` display form). -/
inductive Value where
  | vint : Int → Value
  | vstr : Str → Value
  | vdate : PyDate → Value
  | vdatetime : PyDate → Value
  | vdict : Str → Value
deriving DecidableEq

/-- The `str(...)` display form of a value. -/
def pyStr : Value → Str
  | .vint n => ofS (toString n)
  | .vstr s => s
  | .vdate d => d.str
  | .vdatetime d => d.str
  | .vdict s => s

/-- A Token instance: the (function-stripped) key, the optional one/two
character function prefix, and the 1-based line number (base.py `Token`). -/
structure Tok where
  key : Str
  func : Option Str
  line : Nat
deriving DecidableEq

/-- The exceptions the engine can raise.  `synErr`/`ctxKeyErr` model
`TemplateSyntaxError`/`TemplateKeyError` (exceptions.py), each carrying a
message and the `token` attribute (`None` unless passed).  The rest model
the Python builtins reachable from the code: `idxErr` is the bare
`IndexError` from `deque.pop()` on an empty deque or `conditions[0]` on an
empty list, `valErr` the `ValueError` from unpacking a split of the wrong
length, `typErr` the `TypeError` from concatenating a Block to a string,
`attrErr` an `AttributeError` from a function transform, and `pyKeyErr`
the builtin `KeyError` from an unregistered-operator lookup. -/
inductive TErr where
  | synErr : Str → Option Tok → TErr
  | ctxKeyErr : Str → Option Tok → TErr
  | idxErr : TErr
  | valErr : Str → TErr
  | typErr : Str → TErr
  | attrErr : Str → TErr
  | pyKeyErr : Str → TErr
deriving DecidableEq

/-- A context dictionary: key/value pairs looked up by exact key. -/
abbrev Ctx := List (Str × Value)

/-- Context lookup by exact key. -/
def lookupCtx : Ctx → Str → Option Value
  | [], _ => none
  | (k, v) :: rest, key => if k = key then some v else lookupCtx rest key

/-- The dynamic inputs of the default-variable registry: today's date
(`datetime.date.today()`), the current datetime, and the display form of
`dict(os.environ)`. -/
structure Env where
  today : PyDate
  now : PyDate
  envStr : Str

/-- The hard-coded text of the `Dlorem` default variable (defaults.py),
abbreviated to its first sentence; no claim depends on its contents. -/
def loremText : Str := ofS "Lorem ipsum dolor sit amet, consectetur adipiscing elit."

/-- The default-variable registry built by the metaclass in defaults.py:
`date`, `datetime`, `env` and `lorem`, each a zero-argument provider. -/
def defaultsReg (env : Env) (name : Str) : Option Value :=
  if name = ofS "date" then some (.vdate env.today)
  else if name = ofS "datetime" then some (.vdatetime env.now)
  else if name = ofS "env" then some (.vdict env.envStr)
  else if name = ofS "lorem" then some (.vstr loremText)
  else none

/-- The function registry (defaults.py): only `DY`, which returns
`date.year` and raises `AttributeError` on a value without that
attribute. -/
def applyFunc (f : Str) (v : Value) : Except TErr Value :=
  if f = ofS "DY" then
    match v with
    | .vdate d => .ok (.vint d.year)
    | .vdatetime d => .ok (.vint d.year)
    | _ => .error (.attrErr (ofS "object has no attribute year"))
  else .error (.pyKeyErr f)

/-- The decimal string of a line number, prefixed by `Line `. -/
def linePre (n : Nat) : Str := ofS "Line " ++ (toString n).data

/-- A `Line {n}: ...` error message. -/
def lineMsgT (n : Nat) (tail : String) : Str := linePre n ++ ofS tail

/-- The message of the re-raised error in `Token.compute`:
`Line {n}: (function error, correct attribute type?) {e}`. -/
def rewrapMsg (n : Nat) (m : Str) : Str :=
  linePre n ++ ofS ": (function error, correct attribute type?) " ++ m

/-- Model of `raise type(e)(f"Line {n}: (function error, ...) {e}")`: the
same exception class is re-raised with the line number prefixed. -/
def rewrap (n : Nat) : TErr → TErr
  | .synErr m t => .synErr (rewrapMsg n m) t
  | .ctxKeyErr m t => .ctxKeyErr (rewrapMsg n m) t
  | .idxErr => .idxErr
  | .valErr m => .valErr (rewrapMsg n m)
  | .typErr m => .typErr (rewrapMsg n m)
  | .attrErr m => .attrErr (rewrapMsg n m)
  | .pyKeyErr m => .pyKeyErr (rewrapMsg n m)

/-- Model of `re.match(r"(\w\w?)\s+[\w\W]", key)` in `Token.__init__`: the
greedy `\w\w?` prefers a two-character prefix, which needs a word char at
positions 0 and 1, whitespace at position 2 and at least one further
character; the one-character fallback needs a word char at position 0,
whitespace at position 1 and at least one further character. -/
def funcPrefix (key : Str) : Option Str :=
  match key with
  | a :: b :: c :: _ :: _ =>
    if isIdentCont a && isIdentCont b && isPySpace c then some [a, b]
    else if isIdentCont a && isPySpace b then some [a]
    else none
  | [a, b, _] =>
    if isIdentCont a && isPySpace b then some [a]
    else none
  | _ => none

/-- Message of the unknown-function error raised in `Token.__init__`. -/
def funcErrMsg (n : Nat) (f : Str) : Str :=
  linePre n ++ (ofS ": the function `" ++ (f ++ ofS "` does not exist"))

/-- Model of `Token.__init__`: if the key has a function-prefix shape, the
prefix is stripped off the key (which is then re-stripped); an unregistered
prefix raises a `TemplateSyntaxError` immediately. -/
def mkToken (rawKey : Str) (n : Nat) : Except TErr Tok :=
  match funcPrefix rawKey with
  | none => .ok ⟨rawKey, none, n⟩
  | some f =>
    if f = ofS "DY" then .ok ⟨pyStrip (rawKey.drop f.length), some f, n⟩
    else .error (.synErr (funcErrMsg n f) none)

/-- Model of `Token.compute`: apply the registered function if one is
present, re-raising its exception with the line number prefixed. -/
def computeTok (t : Tok) (v : Value) : Except TErr Value :=
  match t.func with
  | none => .ok v
  | some f =>
    match applyFunc f v with
    | .ok r => .ok r
    | .error e => .error (rewrap t.line e)

/-- Model of `Token.is_string_statement`: the key starts and ends with the
same quote character. -/
def isStringStmt (k : Str) : Bool :=
  match k with
  | [] => false
  | c :: _ =>
    (c == '"' && lastCh k == some '"') || (c == '\'' && lastCh k == some '\'')

/-- Message of the missing-context-key error raised in `Token.render`. -/
def ctxMsg (t : Tok) : Str :=
  linePre t.line ++
    (ofS ": the variable `" ++ (t.key ++ ofS "` is not defined in the context dictionary"))

/-- Message of the invalid-identifier error raised in `Token.render`. -/
def identErrMsg (t : Tok) : Str :=
  linePre t.line ++ (ofS ": incorrect variable name `" ++ (t.key ++ ofS "`"))

/-- Model of `Token.render`, in the source's evaluation order: empty key
fails; an all-digit key returns `int(key)` directly (without `compute`); a
quoted key is stripped of one quote layer and fails when the quote still
occurs inside; keys of fewer than 3 characters and non-identifiers fail; a
`D`-prefixed key naming a registered default variable uses the provider
(never the context); otherwise the key is looked up in the context, with a
`TemplateKeyError` carrying the token on absence. -/
def rTok (env : Env) (ctx : Ctx) (t : Tok) : Except TErr Value :=
  if t.key.isEmpty then
    .error (.synErr (lineMsgT t.line ": empty token variable on line") none)
  else if isdigitL t.key then .ok (.vint (digitsToInt t.key))
  else if isStringStmt t.key then
    if (pyInner t.key).contains (t.key.headD ' ') then
      .error (.synErr (lineMsgT t.line ": incorrect string in the variable tag") none)
    else computeTok t (.vstr (pyInner t.key))
  else if t.key.length ≤ 2 then
    .error (.synErr (lineMsgT t.line
      ": the variable name is too short; variable names should be at leas 3 characters long") none)
  else if !isidentifierL t.key then .error (.synErr (identErrMsg t) none)
  else if startsWithL (ofS "D") t.key && (defaultsReg env (t.key.drop 1)).isSome then
    computeTok t ((defaultsReg env (t.key.drop 1)).getD (.vstr []))
  else
    match lookupCtx ctx t.key with
    | none => .error (.ctxKeyErr (ctxMsg t) (some t))
    | some v => computeTok t v

/-- Leftmost-alternative match of the compiled operator pattern at the head
of the string.  The source passes five operators to a four-place format
string, so the compiled pattern is `(==|>|>=|<)`: `<=` is absent, and `>`
precedes `>=`, so a regex alternation can never match `>=`. -/
def opMatchAt (s : Str) : Option (Str × Str) :=
  match s with
  | [] => none
  | c :: rest =>
    if c = '=' then
      match rest with
      | c2 :: rest2 => if c2 = '=' then some (ofS "==", rest2) else none
      | [] => none
    else if c = '>' then some (ofS ">", rest)
    else if c = '<' then some (ofS "<", rest)
    else none

/-- Leftmost match of the operator pattern anywhere in the string:
the text before it, the operator, and the text after it. -/
def findOp : Str → Option (Str × Str × Str)
  | [] => none
  | c :: rest =>
    match opMatchAt (c :: rest) with
    | some (op, rem) => some ([], op, rem)
    | none =>
      match findOp rest with
      | some (pre, op, rem) => some (c :: pre, op, rem)
      | none => none

/-- Fuelled worker for `opSplit`. -/
def opSplitAux : Nat → Str → List Str
  | 0, s => [s]
  | fuel + 1, s =>
    match findOp s with
    | none => [s]
    | some (pre, op, rem) => pre :: op :: opSplitAux fuel rem

/-- Model of `operators_re.split(condition)` with the capture group kept:
text and matched operators alternate. -/
def opSplit (s : Str) : List Str := opSplitAux s.length s

/-- A parsed Condition (conditions.py): two operand tokens and the matched
operator. -/
structure Cond where
  a : Tok
  op : Str
  b : Tok
deriving DecidableEq

/-- Model of `Condition.__init__`: split the expression on the operator
pattern, strip every part, unpack exactly three parts (a `ValueError`
otherwise), and build the two operand tokens with the block's line
number. -/
def mkCond (c : Str) (n : Nat) : Except TErr Cond :=
  match (opSplit c).map pyStrip with
  | [a, op, b] => do
    let ta ← mkToken a n
    let tb ← mkToken b n
    return ⟨ta, op, tb⟩
  | parts => .error (.valErr (ofS ("expected 3 values to unpack, got " ++ toString parts.length)))

/-- Model of `Condition.check`: render both operands, then dispatch on the
registered operator table, which holds only `==` (Python equality); any
other operator raises the builtin `KeyError`. -/
def checkCond (env : Env) (ctx : Ctx) (c : Cond) : Except TErr Bool := do
  let av ← rTok env ctx c.a
  let bv ← rTok env ctx c.b
  if c.op = ofS "==" then return av == bv
  else .error (.pyKeyErr c.op)

/-- A parsed element of a token list: a literal text fragment, a variable
Token, or a Block (its `condition`/`loop` flags, its conditions list, its
operand text, and its children in order). -/
inductive Item where
  | text : Str → Item
  | tok : Tok → Item
  | blk : Bool → Bool → List Cond → Str → List Item → Item

/-- An open block during tokenization (a Block object on the stack). -/
structure OpenB where
  cond : Bool
  loop : Bool
  conds : List Cond
  operand : Str
  children : List Item

/-- The Block object as an Item once closed. -/
def OpenB.toItem (b : OpenB) : Item := .blk b.cond b.loop b.conds b.operand b.children

/-- Model of `str.replace(pat, "", 1)`: remove the first occurrence. -/
def replaceFirst (pat : Str) : Str → Str
  | [] => []
  | c :: rest =>
    if startsWithL pat (c :: rest) then (c :: rest).drop pat.length
    else c :: replaceFirst pat rest

/-- Model of `Block.__init__` on the stripped tag interior: `condition` is
set when the interior contains `if` as a substring, `loop` when it instead
contains `for`; for a condition block, the first `if` is deleted from the
operand and a Condition is built from the remainder. -/
def mkOpenB (s : Str) (n : Nat) : Except TErr OpenB :=
  if isSub (ofS "if") s then
    match mkCond (replaceFirst (ofS "if") s) n with
    | .ok c => .ok ⟨true, false, [c], replaceFirst (ofS "if") s, []⟩
    | .error e => .error e
  else .ok ⟨false, isSub (ofS "for") s, [], s, []⟩

/-- Search for the non-greedy close of a tag (`.*?` followed by the two
close characters): the shortest newline-free interior ending right before
`c1 c2`, with the remainder after the close. -/
def findClose (c1 c2 : Char) : Str → Option (Str × Str)
  | [] => none
  | a :: rest =>
    if startsWithL [c1, c2] (a :: rest) then some ([], rest.drop 1)
    else if a = '\n' then none
    else
      match findClose c1 c2 rest with
      | some (mid, rem) => some (a :: mid, rem)
      | none => none

/-- The tag (and remainder) matched by `tags_re` at the head of the string:
`<<.*?>>` is tried before `<%.*?%>`, as in the alternation. -/
def tagAt (s : Str) : Option (Str × Str) :=
  if startsWithL (ofS "<<") s then
    match findClose '>' '>' (s.drop 2) with
    | some (mid, rem) => some (ofS "<<" ++ mid ++ ofS ">>", rem)
    | none => none
  else if startsWithL (ofS "<%") s then
    match findClose '%' '>' (s.drop 2) with
    | some (mid, rem) => some (ofS "<%" ++ mid ++ ofS "%>", rem)
    | none => none
  else none

/-- Leftmost `tags_re` match in the string: the text before it, the matched
tag, and the remainder after it. -/
def findTag : Str → Option (Str × Str × Str)
  | [] => none
  | c :: rest =>
    match tagAt (c :: rest) with
    | some (tag, rem) => some ([], tag, rem)
    | none =>
      match findTag rest with
      | some (pre, tag, rem) => some (c :: pre, tag, rem)
      | none => none

/-- Fuelled worker for `splitTags`. -/
def splitTagsAux : Nat → Str → List Str
  | 0, s => [s]
  | fuel + 1, s =>
    match findTag s with
    | none => [s]
    | some (pre, tag, rem) => pre :: tag :: splitTagsAux fuel rem

/-- Model of `tags_re.split(template)` with the capture group kept: text
fragments and matched tags alternate, starting and ending with a (possibly
empty) text fragment.  Each match consumes at least four characters, so the
string's length is always enough fuel. -/
def splitTags (s : Str) : List Str := splitTagsAux s.length s

/-- What the mutable `block` variable of `Template.tokenize` points at: no
Block, the Block on top of the stack, or a popped Block no longer on the
stack (the aliasing that arises after a close tag leaves other blocks
open). -/
inductive Cur where
  | nil : Cur
  | top : Cur
  | orph : OpenB → Cur

/-- Append one child through the `block` variable: to the top-level token
list when `block` is `None`, into the stack's top Block when `block`
aliases it, or into the popped orphan Block. -/
def appendVia (toks : List Item) (stack : List OpenB) (cur : Cur) (i : Item) :
    List Item × List OpenB × Cur :=
  match cur with
  | .nil => (toks ++ [i], stack, .nil)
  | .top =>
    match stack with
    | [] => (toks ++ [i], [], .top)
    | b :: rest => (toks, { b with children := b.children ++ [i] } :: rest, .top)
  | .orph b => (toks, stack, .orph { b with children := b.children ++ [i] })

/-- One pass of the fragment loop of `Template.tokenize`, carrying the line
counter, the accumulated top-level token list, the stack of open blocks
(innermost first, as `blocks`), and the `block` variable. -/
def tokLoop : Nat → List Item → List OpenB → Cur → List Str → Except TErr (List Item)
  | _, toks, _, _, [] => .ok toks
  | n, toks, stack, cur, f :: rest =>
    let n2 := n + countNl f
    if startsWithL (ofS "<<") f then
      match mkToken (pyStrip (sliceInner2 f)) n2 with
      | .error e => .error e
      | .ok t =>
        match appendVia toks stack cur (.tok t) with
        | (toks2, stack2, cur2) => tokLoop n2 toks2 stack2 cur2 rest
    else if isSub (ofS "<<") f && isSub (ofS ">>") f then
      match (splitNl f).findIdx? (fun tiny => isSub (ofS "<<") tiny) with
      | some i =>
        .error (.synErr (lineMsgT (n + i)
          ": new line after the opening variable tag (variable tags must be defined in a single line)") none)
      | none =>
        .error (.synErr (ofS "Lines " ++ (toString n).data ++ ofS " to " ++ (toString n2).data ++
          ofS ": new line after opening variable tag (variable tags must be defined in a single line)") none)
    else if isSub (ofS "<<") f then
      .error (.synErr (lineMsgT n2 ": not closed variable tag") none)
    else if isSub (ofS ">>") f then
      .error (.synErr (lineMsgT n2 ": single closed variable tag (did you forget to open variable tag?)") none)
    else if startsWithL (ofS "<%") f then
      if !isSub (ofS "endif") f && !isSub (ofS "endfor") f then
        match mkOpenB (pyStrip (sliceInner2 f)) n2 with
        | .error e => .error e
        | .ok b => tokLoop n2 toks (b :: stack) .top rest
      else
        match stack with
        | [] => .error .idxErr
        | p :: stack2 =>
          if stack2.isEmpty then tokLoop n2 (toks ++ [p.toItem]) [] .nil rest
          else
            tokLoop n2 toks stack2 (.orph { p with children := p.children ++ [.text f] }) rest
    else
      match appendVia toks stack cur (.text f) with
      | (toks2, stack2, cur2) => tokLoop n2 toks2 stack2 cur2 rest

/-- Model of `Template.tokenize`: split the template on the tag pattern and
run the fragment loop from line 1 with an empty stack. -/
def tokenizeT (s : Str) : Except TErr (List Item) := tokLoop 1 [] [] .nil (splitTags s)

/-- Model of `Block.render`: evaluate `self.conditions[0]` (a bare
`IndexError` when no condition was parsed, as for a `for` block); when the
condition is false return the empty string, otherwise concatenate the
children, rendering Tokens and concatenating anything else as a string — a
nested Block child would raise the builtin `TypeError`. -/
def rBlkItems (env : Env) (ctx : Ctx) (conds : List Cond) (children : List Item) :
    Except TErr Str := do
  match conds with
  | [] => .error .idxErr
  | c :: _ =>
    let b ← checkCond env ctx c
    if !b then return []
    else
      children.foldlM (fun acc it =>
        match it with
        | .text s => .ok (acc ++ s)
        | .tok t => do
          let v ← rTok env ctx t
          return acc ++ pyStr v
        | .blk _ _ _ _ _ =>
          .error (.typErr (ofS "can only concatenate str (not Block) to str"))) []

/-- Model of `Template.process_token`: render a Token or Block, pass a
literal string through `str`. -/
def processItem (env : Env) (ctx : Ctx) : Item → Except TErr Str
  | .text s => .ok s
  | .tok t => do
    let v ← rTok env ctx t
    return pyStr v
  | .blk _ _ conds _ children => rBlkItems env ctx conds children

/-- Model of `Template.render`: tokenize, render every top-level element,
and concatenate in order (`"".join`). -/
def renderT (env : Env) (s : Str) (ctx : Ctx) : Except TErr Str := do
  let toks ← tokenizeT s
  toks.foldlM (fun acc it => do
    let r ← processItem env ctx it
    return acc ++ r) []

/-- A concrete environment for witnesses: a fixed date. -/
def sampleEnv : Env :=
  ⟨⟨2020, ofS "2020-05-17"⟩, ⟨2020, ofS "2020-05-17 10:00:00"⟩, ofS "environ"⟩

/-- A string containing none of the comparison-operator characters, used to
state where the operator pattern matches. -/
def opFree (s : Str) : Bool := s.all (fun c => !(c == '=' || c == '>' || c == '<'))

/-! Helper lemmas about the string scanning primitives. -/

theorem sw_isSub {p s : Str} (h : startsWithL p s = true) : isSub p s = true := by
  cases s with
  | nil => simpa [isSub] using h
  | cons c rest => simp [isSub, h]

theorem sw_false_of_isSub_false {p s : Str} (h : isSub p s = false) :
    startsWithL p s = false := by
  cases hs : startsWithL p s
  · rfl
  · rw [sw_isSub hs] at h; exact absurd h (by simp)

theorem isSub_cons_false {p : Str} {c : Char} {r : Str} (h : isSub p (c :: r) = false) :
    startsWithL p (c :: r) = false ∧ isSub p r = false := by
  simpa [isSub, Bool.or_eq_false_iff] using h

theorem startsWithL_append_self (p r : Str) : startsWithL p (p ++ r) = true := by
  induction p with
  | nil => rfl
  | cons c cs ih => simp [startsWithL, ih]

theorem isSub_append_left {p b : Str} (a : Str) (h : isSub p b = true) :
    isSub p (a ++ b) = true := by
  induction a with
  | nil => simpa using h
  | cons c cs ih => simp [isSub, ih]

theorem isSub_tail_lift {p : Str} : ∀ {s : Str}, isSub p s.tail = true → isSub p s = true
  | [], h => h
  | _ :: _, h => by simp only [List.tail_cons] at h; simp [isSub, h]

theorem isSub_drop_lift {p : Str} : ∀ (n : Nat) {s : Str}, isSub p (s.drop n) = true →
    isSub p s = true
  | 0, _, h => h
  | n + 1, [], h => h
  | n + 1, c :: rest, h => by
    have : isSub p rest = true := isSub_drop_lift n h
    simp [isSub, this]

theorem findClose_isSub {c1 c2 : Char} :
    ∀ {s : Str} {x : Str × Str}, findClose c1 c2 s = some x → isSub [c1, c2] s = true := by
  intro s
  induction s with
  | nil => intro x h; simp [findClose] at h
  | cons a rest ih =>
    intro x h
    rw [findClose] at h
    by_cases hsw : startsWithL [c1, c2] (a :: rest) = true
    · exact sw_isSub hsw
    · rw [if_neg (by simp [hsw])] at h
      by_cases hnl : a = '\n'
      · rw [if_pos hnl] at h; exact absurd h (by simp)
      · rw [if_neg hnl] at h
        cases hf : findClose c1 c2 rest with
        | none => rw [hf] at h; exact absurd h (by simp)
        | some y =>
          have : isSub [c1, c2] rest = true := ih hf
          simp [isSub, this]

theorem tagAt_shape {s : Str} {x : Str × Str} (h : tagAt s = some x) :
    (startsWithL (ofS "<<") s = true ∧ isSub (ofS ">>") s = true) ∨
      startsWithL (ofS "<%") s = true := by
  rw [tagAt] at h
  by_cases h1 : startsWithL (ofS "<<") s = true
  · left
    refine ⟨h1, ?_⟩
    rw [if_pos h1] at h
    cases hf : findClose '>' '>' (s.drop 2) with
    | none => rw [hf] at h; exact absurd h (by simp)
    | some y => exact isSub_drop_lift 2 (findClose_isSub hf)
  · rw [if_neg (by simp [h1])] at h
    by_cases h2 : startsWithL (ofS "<%") s = true
    · exact Or.inr h2
    · rw [if_neg (by simp [h2])] at h
      exact absurd h (by simp)

theorem findTag_eq_none :
    ∀ {s : Str}, isSub (ofS "<%") s = false →
      (isSub (ofS "<<") s = false ∨ isSub (ofS ">>") s = false) → findTag s = none := by
  intro s
  induction s with
  | nil => intro _ _; rfl
  | cons c rest ih =>
    intro hb hv
    have htag : tagAt (c :: rest) = none := by
      cases htag : tagAt (c :: rest) with
      | none => rfl
      | some x =>
        rcases tagAt_shape htag with ⟨hsw, hsub⟩ | hsw
        · rcases hv with hv | hv
          · rw [sw_isSub hsw] at hv; exact absurd hv (by simp)
          · rw [hsub] at hv; exact absurd hv (by simp)
        · rw [sw_isSub hsw] at hb; exact absurd hb (by simp)
    have hbt := (isSub_cons_false hb).2
    have hvt : isSub (ofS "<<") rest = false ∨ isSub (ofS ">>") rest = false := by
      rcases hv with hv | hv
      · exact Or.inl (isSub_cons_false hv).2
      · exact Or.inr (isSub_cons_false hv).2
    rw [findTag, htag, ih hbt hvt]

theorem splitTags_single {s : Str} (h : findTag s = none) : splitTags s = [s] := by
  unfold splitTags
  cases s.length with
  | zero => rfl
  | succ n => rw [splitTagsAux, h]

/-! Helper lemmas about the character classes of keys. -/

theorem identStart_not_digit {c : Char} (h : isIdentStart c = true) : isDigitCh c = false := by
  simp only [isIdentStart, Bool.or_eq_true, Bool.and_eq_true, decide_eq_true_eq,
    Nat.beq_eq_true_eq] at h
  simp only [isDigitCh, Bool.and_eq_false_iff, decide_eq_false_iff_not]
  omega

theorem ident_ne_nil {k : Str} (h : isidentifierL k = true) : k.isEmpty = false := by
  cases k with
  | nil => exact absurd h (by simp [isidentifierL])
  | cons c r => rfl

theorem ident_not_digit {k : Str} (h : isidentifierL k = true) : isdigitL k = false := by
  cases k with
  | nil => rfl
  | cons c r =>
    simp only [isidentifierL, Bool.and_eq_true] at h
    have := identStart_not_digit h.1
    simp [isdigitL, this]

theorem identStart_not_quote {c : Char} (h : isIdentStart c = true) :
    (c == '"') = false ∧ (c == '\'') = false := by
  constructor
  · by_cases hc : c = '"'
    · subst hc; exact absurd h (by decide)
    · simp [hc]
  · by_cases hc : c = '\''
    · subst hc; exact absurd h (by decide)
    · simp [hc]

theorem ident_not_string {k : Str} (h : isidentifierL k = true) : isStringStmt k = false := by
  cases k with
  | nil => rfl
  | cons c r =>
    simp only [isidentifierL, Bool.and_eq_true] at h
    have hq := identStart_not_quote h.1
    simp [isStringStmt, hq.1, hq.2]

theorem stringStmt_ne_nil {k : Str} (h : isStringStmt k = true) : k.isEmpty = false := by
  cases k with
  | nil => exact absurd h (by simp [isStringStmt])
  | cons c r => rfl

theorem stringStmt_not_digit {k : Str} (h : isStringStmt k = true) : isdigitL k = false := by
  cases k with
  | nil => rfl
  | cons c r =>
    simp only [isStringStmt, Bool.or_eq_true, Bool.and_eq_true, beq_iff_eq] at h
    rcases h with ⟨hc, _⟩ | ⟨hc, _⟩ <;> subst hc <;> simp [isdigitL, isDigitCh]

theorem digit_ne_nil {k : Str} (h : isdigitL k = true) : k.isEmpty = false := by
  cases k with
  | nil => exact absurd h (by simp [isdigitL])
  | cons c r => rfl

/-! Helper lemmas about the operator pattern of conditions.py. -/

theorem opMatchAt_none {c : Char} (rest : Str)
    (h : (!(c == '=' || c == '>' || c == '<')) = true) : opMatchAt (c :: rest) = none := by
  simp only [Bool.not_eq_true', Bool.or_eq_false_iff, beq_eq_false_iff_ne, ne_eq] at h
  simp [opMatchAt, h.1.1, h.1.2, h.2]

theorem findOp_none {s : Str} (h : opFree s = true) : findOp s = none := by
  induction s with
  | nil => rfl
  | cons c rest ih =>
    simp only [opFree, List.all_cons, Bool.and_eq_true] at h
    rw [findOp, opMatchAt_none rest h.1, ih h.2]

theorem opSplitAux_none {s : Str} (h : findOp s = none) :
    ∀ fuel, opSplitAux fuel s = [s] := by
  intro fuel
  cases fuel with
  | zero => rfl
  | succ m => rw [opSplitAux, h]

theorem findOp_eq_after {b : Str} (hb : opFree b = true) : findOp ('=' :: b) = none := by
  have hob : opMatchAt ('=' :: b) = none := by
    cases b with
    | nil => rfl
    | cons c2 rest2 =>
      simp only [opFree, List.all_cons, Bool.and_eq_true, Bool.not_eq_true',
        Bool.or_eq_false_iff, beq_eq_false_iff_ne, ne_eq] at hb
      simp [opMatchAt, hb.1.1.1]
  rw [findOp, hob, findOp_none hb]

theorem findOp_ge (a b : Str) (ha : opFree a = true) :
    findOp (a ++ '>' :: '=' :: b) = some (a, ofS ">", '=' :: b) := by
  induction a with
  | nil => rfl
  | cons c cs ih =>
    simp only [opFree, List.all_cons, Bool.and_eq_true] at ha
    rw [List.cons_append, findOp, opMatchAt_none _ ha.1, ih ha.2]

theorem findOp_le (a b : Str) (ha : opFree a = true) :
    findOp (a ++ '<' :: '=' :: b) = some (a, ofS "<", '=' :: b) := by
  induction a with
  | nil => rfl
  | cons c cs ih =>
    simp only [opFree, List.all_cons, Bool.and_eq_true] at ha
    rw [List.cons_append, findOp, opMatchAt_none _ ha.1, ih ha.2]

theorem opSplit_ge (a b : Str) (ha : opFree a = true) (hb : opFree b = true) :
    opSplit (a ++ '>' :: '=' :: b) = [a, ofS ">", '=' :: b] := by
  unfold opSplit
  cases hl : (a ++ '>' :: '=' :: b).length with
  | zero => simp [List.length_append] at hl
  | succ m =>
    rw [opSplitAux, findOp_ge a b ha]
    simp [opSplitAux_none (findOp_eq_after hb)]

theorem opSplit_le (a b : Str) (ha : opFree a = true) (hb : opFree b = true) :
    opSplit (a ++ '<' :: '=' :: b) = [a, ofS "<", '=' :: b] := by
  unfold opSplit
  cases hl : (a ++ '<' :: '=' :: b).length with
  | zero => simp [List.length_append] at hl
  | succ m =>
    rw [opSplitAux, findOp_le a b ha]
    simp [opSplitAux_none (findOp_eq_after hb)]

/-! The claim theorems. -/

/-- C1: evaluation of the code on a nested-block template.  The claim says
the completed inner Block becomes a child of the outer Block and is rendered
recursively, so the template below should render `ABC`; the code instead
renders `A`: the popped inner Block is never attached to the outer Block
(the raw `endif` fragment is appended to it and it is then abandoned), and
the text after the inner `endif` is appended to the abandoned Block. -/
theorem c1_nested_block_dropped : ∀ env : Env,
    renderT env (ofS "<% if 'a' == 'a' %>A<% if 'b' == 'b' %>B<% endif %>C<% endif %>") [] =
      .ok (ofS "A") := fun _ => rfl

/-- C2 counterexample: splitting the condition `VAR1 >= VAR2` does not use
longest match: the operator comes out as `>`, and `= VAR2` (not `VAR2`)
becomes the right operand token, contrary to the claimed `>=` split. -/
theorem c2_ge_split_counterexample :
    mkCond (ofS "VAR1 >= VAR2") 1 =
      .ok ⟨⟨ofS "VAR1", none, 1⟩, ofS ">", ⟨ofS "= VAR2", none, 1⟩⟩ ∧
    (Cond.mk ⟨ofS "VAR1", none, 1⟩ (ofS ">") ⟨ofS "= VAR2", none, 1⟩ ≠
      ⟨⟨ofS "VAR1", none, 1⟩, ofS ">=", ⟨ofS "VAR2", none, 1⟩⟩) :=
  ⟨rfl, by decide⟩

/-- C2 amended: the condition text is split at the first match of the
compiled alternation `(==|>|>=|<)`, in which `>` precedes `>=` and `<=` is
absent, so an expression containing `>=` is split at `>` (and one containing
`<=` at `<`) with the `=` left attached to the right operand; the stripped
operand substrings become Tokens sharing the block's line number. -/
theorem c2_split_amended :
    (∀ a b : Str, opFree a = true → opFree b = true →
      opSplit (a ++ '>' :: '=' :: b) = [a, ofS ">", '=' :: b]) ∧
    (∀ a b : Str, opFree a = true → opFree b = true →
      opSplit (a ++ '<' :: '=' :: b) = [a, ofS "<", '=' :: b]) ∧
    (∀ n : Nat, mkCond (ofS "VAR1 >= VAR2") n =
      .ok ⟨⟨ofS "VAR1", none, n⟩, ofS ">", ⟨ofS "= VAR2", none, n⟩⟩) :=
  ⟨opSplit_ge, opSplit_le, fun _ => rfl⟩

/-- C2 witness: the amended split behaviour at concrete inputs. -/
theorem c2_split_amended_witness :
    opSplit (ofS "ab" ++ '>' :: '=' :: ofS " cd") = [ofS "ab", ofS ">", '=' :: ofS " cd"] ∧
    mkCond (ofS "VAR1 >= VAR2") 3 =
      .ok ⟨⟨ofS "VAR1", none, 3⟩, ofS ">", ⟨ofS "= VAR2", none, 3⟩⟩ :=
  ⟨c2_split_amended.1 (ofS "ab") (ofS " cd") (by decide) (by decide),
   c2_split_amended.2.2 3⟩

/-- C3: evaluation of the code on a template whose `if` block is never
closed.  The claim (with the spec) requires an unterminated-block failure;
the code instead tokenizes successfully to just the empty leading text
fragment — the open block and its `hello` content are silently dropped —
and the render succeeds with empty output. -/
theorem c3_unterminated_block_silent :
    tokenizeT (ofS "<% if 'a' == 'a' %>hello") = .ok [Item.text (ofS "")] ∧
    ∀ env : Env, renderT env (ofS "<% if 'a' == 'a' %>hello") [] = .ok (ofS "") :=
  ⟨rfl, fun _ => rfl⟩

/-- C4 counterexample: the token built from `DY 123` carries the registered
function `DY`, yet rendering returns the bare integer 123: the digit path
returns `int(key)` without calling `compute`, so the transform is not
applied (applying it would give a different result). -/
theorem c4_digit_func_counterexample :
    mkToken (ofS "DY 123") 1 = .ok ⟨ofS "123", some (ofS "DY"), 1⟩ ∧
    rTok sampleEnv [] ⟨ofS "123", some (ofS "DY"), 1⟩ = .ok (.vint 123) ∧
    rTok sampleEnv [] ⟨ofS "123", some (ofS "DY"), 1⟩ ≠
      computeTok ⟨ofS "123", some (ofS "DY"), 1⟩ (.vint 123) :=
  ⟨rfl, rfl, fun h => Except.noConfusion h⟩

/-- C4 amended: for every Token whose key consists only of digits, rendering
yields that key as an integer literal; a function prefix, if present, is
ignored on this path (`compute` is never called). -/
theorem c4_digit_amended : ∀ (env : Env) (ctx : Ctx) (t : Tok), isdigitL t.key = true →
    rTok env ctx t = .ok (.vint (digitsToInt t.key)) := by
  intro env ctx t h
  simp [rTok, digit_ne_nil h, h]

/-- C4 witness: a digit key with a function prefix renders to the plain
integer. -/
theorem c4_digit_amended_witness :
    rTok sampleEnv [] ⟨ofS "007", some (ofS "DY"), 2⟩ = .ok (.vint 7) :=
  (c4_digit_amended sampleEnv [] ⟨ofS "007", some (ofS "DY"), 2⟩ (by decide)).trans (by rfl)

/-- C5: a Token whose key is `D` followed by a registered default-variable
name renders through the zero-argument provider, for any function prefix
and line; the context is never consulted (the result is the same for every
context, including one that binds the very same key); and the template
`<<Ddate>>` renders to today's date's string form for every context. -/
theorem c5_default_variable :
    (∀ (env : Env) (ctx ctx2 : Ctx) (f : Option Str) (n : Nat) (name : Str) (v : Value),
      defaultsReg env name = some v →
      rTok env ctx ⟨'D' :: name, f, n⟩ = computeTok ⟨'D' :: name, f, n⟩ v ∧
      rTok env ctx ⟨'D' :: name, f, n⟩ = rTok env ctx2 ⟨'D' :: name, f, n⟩) ∧
    (∀ (env : Env) (ctx : Ctx), renderT env (ofS "<<Ddate>>") ctx = .ok env.today.str) := by
  constructor
  · intro env ctx ctx2 f n name v h
    unfold defaultsReg at h
    split_ifs at h with hn1 hn2 hn3 hn4
    · subst hn1; injection h with hv; subst hv; exact ⟨rfl, rfl⟩
    · subst hn2; injection h with hv; subst hv; exact ⟨rfl, rfl⟩
    · subst hn3; injection h with hv; subst hv; exact ⟨rfl, rfl⟩
    · subst hn4; injection h with hv; subst hv; exact ⟨rfl, rfl⟩
  · intro env ctx
    have h : renderT env (ofS "<<Ddate>>") ctx = .ok (env.today.str ++ []) := rfl
    rw [h, List.append_nil]

/-- C5 witness: `Ddate` uses the provider even when the context binds the
key `Ddate` itself, and `<<Ddate>>` renders the sample date. -/
theorem c5_default_variable_witness :
    rTok sampleEnv [(ofS "Ddate", Value.vstr (ofS "SHADOW"))] ⟨'D' :: ofS "date", none, 1⟩ =
      computeTok ⟨'D' :: ofS "date", none, 1⟩ (.vdate ⟨2020, ofS "2020-05-17"⟩) ∧
    renderT sampleEnv (ofS "<<Ddate>>") [(ofS "Ddate", Value.vstr (ofS "SHADOW"))] =
      .ok (ofS "2020-05-17") :=
  ⟨(c5_default_variable.1 sampleEnv [(ofS "Ddate", Value.vstr (ofS "SHADOW"))] [] none 1
      (ofS "date") (.vdate ⟨2020, ofS "2020-05-17"⟩) rfl).1,
   (c5_default_variable.2 sampleEnv [(ofS "Ddate", Value.vstr (ofS "SHADOW"))]).trans (by rfl)⟩

/-- C6: a Token whose key is a valid identifier of at least 3 characters,
is not a prefixed default variable, and is absent from the context renders
to a `TemplateKeyError` — a constructor distinct from the syntax-error one —
whose message mentions `context` and the token's line number and whose
token attribute is the offending Token; whereas the empty-key, too-short,
invalid-identifier, unknown-function and ambiguous-string failures are all
`TemplateSyntaxError`s (with no token attached). -/
theorem c6_context_key_error :
    (∀ (env : Env) (ctx : Ctx) (t : Tok),
      isidentifierL t.key = true → 3 ≤ t.key.length →
      (startsWithL (ofS "D") t.key && (defaultsReg env (t.key.drop 1)).isSome) = false →
      lookupCtx ctx t.key = none →
      rTok env ctx t = .error (.ctxKeyErr (ctxMsg t) (some t)) ∧
      isSub (ofS "context") (ctxMsg t) = true ∧
      isSub (linePre t.line) (ctxMsg t) = true) ∧
    (∀ (m m2 : Str) (tk tk2 : Option Tok), TErr.ctxKeyErr m tk ≠ TErr.synErr m2 tk2) ∧
    (∀ (env : Env) (ctx : Ctx) (f : Option Str) (n : Nat),
      rTok env ctx ⟨[], f, n⟩ =
        .error (.synErr (lineMsgT n ": empty token variable on line") none)) ∧
    (∀ (env : Env) (ctx : Ctx) (t : Tok),
      isdigitL t.key = false → isStringStmt t.key = false → t.key.isEmpty = false →
      t.key.length ≤ 2 →
      rTok env ctx t = .error (.synErr (lineMsgT t.line
        ": the variable name is too short; variable names should be at leas 3 characters long") none)) ∧
    (∀ (env : Env) (ctx : Ctx) (t : Tok),
      isdigitL t.key = false → isStringStmt t.key = false → t.key.isEmpty = false →
      ¬ t.key.length ≤ 2 → isidentifierL t.key = false →
      rTok env ctx t = .error (.synErr (identErrMsg t) none)) ∧
    (∀ (key : Str) (n : Nat) (f : Str), funcPrefix key = some f → ¬ f = ofS "DY" →
      mkToken key n = .error (.synErr (funcErrMsg n f) none)) ∧
    (∀ (env : Env) (ctx : Ctx) (t : Tok), isStringStmt t.key = true →
      (t.key.head?).getD ' ' ∈ pyInner t.key →
      rTok env ctx t =
        .error (.synErr (lineMsgT t.line ": incorrect string in the variable tag") none)) := by
  refine ⟨?_, ?_, ?_, ?_, ?_, ?_, ?_⟩
  · intro env ctx t hid hlen hD hlook
    have hne := ident_ne_nil hid
    have hdig := ident_not_digit hid
    have hstr := ident_not_string hid
    have hshort : ¬ t.key.length ≤ 2 := by omega
    have hD2 : (startsWithL (ofS "D") t.key && (defaultsReg env t.key.tail).isSome) = false := by
      simpa [List.drop_one] using hD
    refine ⟨by simp [rTok, hne, hdig, hstr, hshort, hid, hD2, hlook], ?_, ?_⟩
    · exact isSub_append_left _ (isSub_append_left _ (isSub_append_left _ (by decide)))
    · exact sw_isSub (startsWithL_append_self _ _)
  · intro m m2 tk tk2 h
    exact TErr.noConfusion h
  · intro env ctx f n
    rfl
  · intro env ctx t hdig hstr hne hlen
    simp [rTok, hne, hdig, hstr, hlen]
  · intro env ctx t hdig hstr hne hlen hid
    simp [rTok, hne, hdig, hstr, hlen, hid]
  · intro key n f h hf
    simp [mkToken, h, hf]
  · intro env ctx t hs hc
    have hne := stringStmt_ne_nil hs
    have hdig := stringStmt_not_digit hs
    simp [rTok, hne, hdig, hs, hc]

/-- C6 witness: the missing key `div` raises the context-key error carrying
the token, and the short key `ab` raises the syntax error. -/
theorem c6_context_key_error_witness :
    rTok sampleEnv [] ⟨ofS "div", none, 1⟩ =
      .error (.ctxKeyErr (ctxMsg ⟨ofS "div", none, 1⟩) (some ⟨ofS "div", none, 1⟩)) ∧
    isSub (ofS "context") (ctxMsg ⟨ofS "div", none, 1⟩) = true ∧
    rTok sampleEnv [] ⟨ofS "ab", none, 3⟩ = .error (.synErr (lineMsgT 3
      ": the variable name is too short; variable names should be at leas 3 characters long") none) :=
  ⟨(c6_context_key_error.1 sampleEnv [] ⟨ofS "div", none, 1⟩ (by decide) (by decide)
      (by decide) rfl).1,
   (c6_context_key_error.1 sampleEnv [] ⟨ofS "div", none, 1⟩ (by decide) (by decide)
      (by decide) rfl).2.1,
   c6_context_key_error.2.2.2.1 sampleEnv [] ⟨ofS "ab", none, 3⟩ (by decide) (by decide)
      (by decide) (by decide)⟩

/-- C7 counterexample: the template `a<<b` followed by a newline and `c`
contains an unclosed `<<` that starts on line 1, but the raised syntax
error cites Line 2 (the line counter is advanced by every newline of the
offending fragment, including those after the anomaly, before the fragment
is validated), so the cited line is not the line where the anomaly
starts. -/
theorem c7_line_counterexample :
    tokenizeT (ofS "a<<b\nc") =
      .error (.synErr (ofS "Line 2: not closed variable tag") none) ∧
    isSub (ofS "Line 1") (ofS "Line 2: not closed variable tag") = false :=
  ⟨rfl, by decide⟩

/-- C7 amended: an input that contains `<<` but no `>>` and no `<%`, and
does not itself begin with `<<` (in which case the fragment is misparsed as
a complete tag instead), fails with a syntax error mentioning `not closed`
that cites line 1 plus the total newline count of the input — the line
where the offending fragment ends, not necessarily where the anomaly
starts; symmetrically, an input containing `>>` but no `<<` and no `<%`
fails with a syntax error mentioning `forget` citing the same line. -/
theorem c7_unclosed_amended :
    (∀ s : Str, isSub (ofS "<<") s = true → isSub (ofS ">>") s = false →
      isSub (ofS "<%") s = false → startsWithL (ofS "<<") s = false →
      tokenizeT s =
        .error (.synErr (lineMsgT (1 + countNl s) ": not closed variable tag") none) ∧
      isSub (ofS "not closed") (lineMsgT (1 + countNl s) ": not closed variable tag") = true) ∧
    (∀ s : Str, isSub (ofS ">>") s = true → isSub (ofS "<<") s = false →
      isSub (ofS "<%") s = false →
      tokenizeT s =
        .error (.synErr (lineMsgT (1 + countNl s)
          ": single closed variable tag (did you forget to open variable tag?)") none) ∧
      isSub (ofS "forget")
        (lineMsgT (1 + countNl s)
          ": single closed variable tag (did you forget to open variable tag?)") = true) := by
  constructor
  · intro s h1 h2 h3 hsw
    have hsp : splitTags s = [s] := splitTags_single (findTag_eq_none h3 (Or.inr h2))
    constructor
    · rw [tokenizeT, hsp, tokLoop]
      simp [hsw, h1, h2]
    · exact isSub_append_left _ (by decide)
  · intro s h1 h2 h3
    have hsp : splitTags s = [s] := splitTags_single (findTag_eq_none h3 (Or.inl h2))
    have hsw : startsWithL (ofS "<<") s = false := sw_false_of_isSub_false h2
    constructor
    · rw [tokenizeT, hsp, tokLoop]
      simp [hsw, h1, h2]
    · exact isSub_append_left _ (by decide)

/-- C7 witness: a mid-string unclosed `<<` fails on its single line, and a
lone `>>` followed by a newline fails with the forget message on line 2. -/
theorem c7_unclosed_amended_witness :
    tokenizeT (ofS "x<<y") =
      .error (.synErr (lineMsgT 1 ": not closed variable tag") none) ∧
    tokenizeT (ofS "q>>w\ne") =
      .error (.synErr (lineMsgT 2
        ": single closed variable tag (did you forget to open variable tag?)") none) :=
  ⟨((c7_unclosed_amended.1 (ofS "x<<y") (by decide) (by decide) (by decide)
      (by decide)).1).trans (by rfl),
   ((c7_unclosed_amended.2 (ofS "q>>w\ne") (by decide) (by decide) (by decide)).1).trans (by rfl)⟩

/-- C8: a Token whose key begins and ends with the same quote character has
one quote layer stripped from each end; when the quote character does not
recur inside, the (possibly function-transformed) inner string is returned,
and when it does recur the render fails with a syntax error mentioning
`incorrect` and `string`; in particular the template with tag interior
`'' ''` fails that way for every context. -/
theorem c8_quoted_literal :
    (∀ (env : Env) (ctx : Ctx) (t : Tok), isStringStmt t.key = true →
      ((pyInner t.key).contains (t.key.headD ' ') = false →
        rTok env ctx t = computeTok t (.vstr (pyInner t.key))) ∧
      ((pyInner t.key).contains (t.key.headD ' ') = true →
        rTok env ctx t =
          .error (.synErr (lineMsgT t.line ": incorrect string in the variable tag") none) ∧
        isSub (ofS "incorrect") (lineMsgT t.line ": incorrect string in the variable tag") = true ∧
        isSub (ofS "string") (lineMsgT t.line ": incorrect string in the variable tag") = true)) ∧
    (∀ (env : Env) (ctx : Ctx), renderT env (ofS "<<'' ''>>") ctx =
      .error (.synErr (lineMsgT 1 ": incorrect string in the variable tag") none)) := by
  constructor
  · intro env ctx t hs
    have hne := stringStmt_ne_nil hs
    have hdig := stringStmt_not_digit hs
    constructor
    · intro hc
      have hc2 : (t.key.head?).getD ' ' ∉ pyInner t.key := by
        simpa [List.headD_eq_head?] using hc
      simp [rTok, hne, hdig, hs, hc2]
    · intro hc
      have hc2 : (t.key.head?).getD ' ' ∈ pyInner t.key := by
        simpa [List.headD_eq_head?] using hc
      refine ⟨by simp [rTok, hne, hdig, hs, hc2], ?_, ?_⟩
      · exact isSub_append_left _ (by decide)
      · exact isSub_append_left _ (by decide)
  · intro env ctx
    rfl

/-- C8 witness: a well-formed quoted key renders to its interior, and a key
with the quote recurring inside fails with the incorrect-string error. -/
theorem c8_quoted_literal_witness :
    rTok sampleEnv [] ⟨ofS "\"hi\"", none, 4⟩ = .ok (.vstr (ofS "hi")) ∧
    rTok sampleEnv [] ⟨ofS "'a'b'", none, 5⟩ =
      .error (.synErr (lineMsgT 5 ": incorrect string in the variable tag") none) :=
  ⟨(((c8_quoted_literal.1 sampleEnv [] ⟨ofS "\"hi\"", none, 4⟩ (by decide)).1)
      (by decide)).trans (by rfl),
   (((c8_quoted_literal.1 sampleEnv [] ⟨ofS "'a'b'", none, 5⟩ (by decide)).2) (by decide)).1⟩

/-- C9: a template containing none of the four delimiters tokenizes to the
single literal fragment (a non-empty token sequence, also for the
zero-length input) and renders to itself unchanged, for every environment
and context. -/
theorem c9_passthrough : ∀ (env : Env) (ctx : Ctx) (s : Str),
    isSub (ofS "<<") s = false → isSub (ofS ">>") s = false →
    isSub (ofS "<%") s = false → isSub (ofS "%>") s = false →
    tokenizeT s = .ok [Item.text s] ∧ ([Item.text s] ≠ ([] : List Item)) ∧
      renderT env s ctx = .ok s := by
  intro env ctx s h1 h2 h3 _
  have hsp : splitTags s = [s] := splitTags_single (findTag_eq_none h3 (Or.inl h1))
  have hsw1 : startsWithL (ofS "<<") s = false := sw_false_of_isSub_false h1
  have hsw2 : startsWithL (ofS "<%") s = false := sw_false_of_isSub_false h3
  have htok : tokenizeT s = .ok [Item.text s] := by
    rw [tokenizeT, hsp, tokLoop]
    simp [hsw1, hsw2, h1, h2, appendVia, tokLoop]
  refine ⟨htok, by simp, ?_⟩
  rw [renderT, htok]
  rfl

/-- C9 witness: the zero-length input yields the one-fragment token list
(non-empty) and renders to the empty string. -/
theorem c9_passthrough_witness :
    tokenizeT (ofS "") = .ok [Item.text (ofS "")] ∧
    ([Item.text (ofS "")] ≠ ([] : List Item)) ∧
    renderT sampleEnv (ofS "") [] = .ok (ofS "") :=
  c9_passthrough sampleEnv [] (ofS "") (by decide) (by decide) (by decide) (by decide)

/-- C10: the template consisting of just `<% endif %>` makes tokenize pop
the empty deque, raising the bare `IndexError` — a constructor distinct
from both template error classes and carrying no line or message — and
close detection is by substring containment: any block tag whose text
contains `endif` or `endfor` is treated as a closer, so a `for`-opening tag
such as `<% for endfors %>` closes the currently open block (the template
below renders `X` with its `if` block closed by the `for` tag), and with an
empty stack any such tag raises the bare `IndexError`. -/
theorem c10_endtag_substring :
    tokenizeT (ofS "<% endif %>") = .error .idxErr ∧
    (∀ (m : Str) (tk : Option Tok),
      TErr.idxErr ≠ TErr.synErr m tk ∧ TErr.idxErr ≠ TErr.ctxKeyErr m tk) ∧
    (∀ env : Env,
      renderT env (ofS "<% if 'a' == 'a' %>X<% for endfors %>") [] = .ok (ofS "X")) ∧
    (∀ (n : Nat) (toks : List Item) (cur : Cur) (f : Str) (rest : List Str),
      startsWithL (ofS "<%") f = true → isSub (ofS "<<") f = false →
      isSub (ofS ">>") f = false →
      (isSub (ofS "endif") f = true ∨ isSub (ofS "endfor") f = true) →
      tokLoop n toks [] cur (f :: rest) = .error .idxErr) := by
  refine ⟨rfl, ?_, fun _ => rfl, ?_⟩
  · intro m tk
    exact ⟨fun h => TErr.noConfusion h, fun h => TErr.noConfusion h⟩
  · intro n toks cur f rest hsw h1 h2 hend
    have hsw1 : startsWithL (ofS "<<") f = false := sw_false_of_isSub_false h1
    rw [tokLoop]
    rcases hend with h | h <;> simp [hsw1, h1, h2, hsw, h]

/-- C10 witness: a tag whose text merely contains `endfor` pops the empty
stack and raises the bare `IndexError`. -/
theorem c10_endtag_substring_witness :
    tokLoop 1 [] [] .nil [ofS "<% endfortune %>"] = .error .idxErr :=
  c10_endtag_substring.2.2.2 1 [] .nil (ofS "<% endfortune %>") [] (by decide) (by decide)
    (by decide) (Or.inr (by decide))

end Tempearly
